import Mathlib

/-!
Verification of the composing/suggestion-display core of the tsf-exp input
method editor, translated from `src/tsf/composition.rs` and
`src/ui/candidate_list.rs` as a shallow embedding.

Modelling conventions:
- The candidate window's OS-level visibility (`ShowWindow SW_SHOWNOACTIVATE` /
  `SW_HIDE`) is a `visible : Bool` field next to the interior `HighlightState`.
- Host edit-session calls (`GetRange`, `edit_session::set_text`) are fallible;
  a `Host` record says which ones succeed.  Rust `?` propagation is modelled
  by returning the state mutated so far together with a success flag, since
  `&mut self` mutations persist past an early `Err` return.
- Calls out of the component (engine notifications, host text writes) are
  recorded in an event list.
- The suggestion engine (the `riti` crate) is an external black box; its
  results (`CandidateSet`) are inputs, supplied as function parameters.
- `f32` layout arithmetic is modelled exactly over `ℚ`; the measurement
  backend (DirectWrite) is a parameter returning a (width, height) pair
  per measured string.
- A Rust panic (`Option::unwrap` on `None`) is modelled as `Option.none`
  in the operation's result type.
-/

/-! ### Constants from `src/global.rs` and `src/ui/candidate_list.rs` -/

def CANDI_NUM : Nat := 9

def CANDI_INDEXES : List String := ["1", "2", "3", "4", "5", "6", "7", "8", "9"]

def CANDI_INDEX_SUFFIX : String := "."

def CLIP_WIDTH : ℚ := 3

def LABEL_PADDING_TOP : ℚ := 4

def LABEL_PADDING_BOTTOM : ℚ := 4

def LABEL_PADDING_LEFT : ℚ := 5

def LABEL_PADDING_RIGHT : ℚ := 6

def INDEX_CANDI_GAP : ℚ := 6

def BORDER_WIDTH : ℚ := 0

/-! ### Candidate window (`src/ui/candidate_list.rs`) -/

/-- Interior mutable state for highlight tracking (struct `HighlightState`). -/
structure HighlightState where
  highlighted_index : Nat
  candidate_count : Nat
  candidates : List String
  deriving Repr, DecidableEq

/-- The candidate window (struct `CandidateList`): the interior state plus the
OS window's visibility (toggled by `ShowWindow` in `show`/`hide`).  Font sizes
and the window handle have no bearing on the modelled behaviour. -/
structure CandidateList where
  state : HighlightState
  visible : Bool
  deriving Repr, DecidableEq

namespace CandidateList

/-- Method `repaint(resize)`: returns early when `candidates` is empty;
otherwise rebuilds the `PaintArg` (pure geometry, no state change) and, when
`resize` is true, resizes and reveals the window (`ShowWindow
SW_SHOWNOACTIVATE`).  Only the visibility change is part of the state. -/
def repaint (cl : CandidateList) (resize : Bool) : CandidateList :=
  if cl.state.candidates.isEmpty then cl
  else if resize then { cl with visible := true }
  else cl

/-- Method `invalidate`: `repaint(false)`. -/
def invalidate (cl : CandidateList) : CandidateList :=
  cl.repaint false

/-- Method `move_highlight_next`: no-op when `candidate_count == 0`, else
advance the highlight by one, wrapping via `%`. -/
def move_highlight_next (cl : CandidateList) : CandidateList :=
  if cl.state.candidate_count = 0 then cl
  else
    ({ cl with
        state := { cl.state with
          highlighted_index :=
            (cl.state.highlighted_index + 1) % cl.state.candidate_count } }).invalidate

/-- Method `move_highlight_prev`: no-op when `candidate_count == 0`, else
retreat the highlight by one, wrapping to `candidate_count - 1` at 0. -/
def move_highlight_prev (cl : CandidateList) : CandidateList :=
  if cl.state.candidate_count = 0 then cl
  else if cl.state.highlighted_index = 0 then
    ({ cl with
        state := { cl.state with
          highlighted_index := cl.state.candidate_count - 1 } }).invalidate
  else
    ({ cl with
        state := { cl.state with
          highlighted_index := cl.state.highlighted_index - 1 } }).invalidate

/-- Method `set_highlight(index) -> bool`: false and unchanged when
`index >= candidate_count`, else set the highlight and return true. -/
def set_highlight (cl : CandidateList) (index : Nat) : CandidateList × Bool :=
  if cl.state.candidate_count ≤ index then (cl, false)
  else
    (({ cl with
        state := { cl.state with highlighted_index := index } }).invalidate, true)

/-- Method `get_highlighted_index`. -/
def get_highlighted_index (cl : CandidateList) : Nat :=
  cl.state.highlighted_index

/-- Method `get_candidate_count`. -/
def get_candidate_count (cl : CandidateList) : Nat :=
  cl.state.candidate_count

/-- Method `reset_highlight`: set the highlight back to 0 (no repaint). -/
def reset_highlight (cl : CandidateList) : CandidateList :=
  { cl with state := { cl.state with highlighted_index := 0 } }

/-- Method `show(suggs)`: reset the highlight to 0, store the first
`CANDI_NUM` candidates and their count, then `repaint(true)`. -/
def «show» (cl : CandidateList) (suggs : List String) : CandidateList :=
  let cl1 : CandidateList :=
    { cl with
      state :=
        { highlighted_index := 0
          candidate_count := min suggs.length CANDI_NUM
          candidates := suggs.take CANDI_NUM } }
  cl1.repaint true

/-- Method `hide`: `ShowWindow SW_HIDE`; the interior state is untouched. -/
def hide (cl : CandidateList) : CandidateList :=
  { cl with visible := false }

end CandidateList

/-! ### Layout geometry of `CandidateList::repaint` (`src/ui/candidate_list.rs`)

The measurement backend (`measure_text_dwrite` with the candidate and the
index text formats) is abstracted as two functions returning an exact
(width, height) pair per string. -/

/-- Geometry computed by `repaint` before it is stored into `PaintArg` and
used to size the window. -/
structure Layout where
  wnd_width : ℚ
  wnd_height : ℚ
  highlight_width : ℚ
  label_height : ℚ
  row_height : ℚ
  index_width : ℚ
  candi_widths : List ℚ
  deriving Repr, DecidableEq

/-- Index labels measured by the `repaint` loop: `"1."`, `"2."`, … for the
first `min (length suggs) CANDI_NUM` entries
(`format!("{}{}", CANDI_INDEXES[index], self.index_suffix)`). -/
def indiceStr (suggs : List String) : List String :=
  (List.range (suggs.take CANDI_NUM).length).map
    (fun i => CANDI_INDEXES.getD i "" ++ CANDI_INDEX_SUFFIX)

/-- The geometry part of `CandidateList::repaint`, translated line by line:
per-item measurement, `row_height`/`label_height`, the vertical/horizontal
window extents with the `4/5` floor in vertical mode, the border additions
(`BORDER_WIDTH = 0`), and the highlight width of the highlighted item. -/
def computeLayout (vertical : Bool) (measureIdx measureCandi : String → ℚ × ℚ)
    (suggs : List String) (highlighted_index : Nat) : Layout :=
  let items := suggs.take CANDI_NUM
  let labels := indiceStr suggs
  let index_width := labels.foldl (fun acc l => max acc (measureIdx l).1) 0
  let index_height := labels.foldl (fun acc l => max acc (measureIdx l).2) 0
  let candi_widths := items.map (fun su => (measureCandi su).1)
  let max_candi_height := items.foldl (fun acc su => max acc (measureCandi su).2) 0
  let row_height := max max_candi_height index_height
  let label_height := LABEL_PADDING_TOP + row_height + LABEL_PADDING_BOTTOM
  let wh0 : ℚ :=
    if vertical then (items.length : ℚ) * label_height else label_height
  let ww0 : ℚ :=
    if vertical then
      max
        (CLIP_WIDTH + LABEL_PADDING_LEFT + index_width + INDEX_CANDI_GAP
          + candi_widths.foldl max 0 + LABEL_PADDING_RIGHT)
        (wh0 * 4 / 5)
    else
      -- four consecutive `wnd_width +=` per item: paddings, index width,
      -- gap, candidate width
      candi_widths.foldl
        (fun acc w =>
          acc + (LABEL_PADDING_LEFT + LABEL_PADDING_RIGHT
            + index_width + INDEX_CANDI_GAP + w))
        CLIP_WIDTH
  let wnd_height := wh0 + 2 * BORDER_WIDTH
  let wnd_width := ww0 + 2 * BORDER_WIDTH
  let highlight_width :=
    if vertical then wnd_width - CLIP_WIDTH - 2 * BORDER_WIDTH
    else
      LABEL_PADDING_LEFT + index_width + INDEX_CANDI_GAP
        + candi_widths.getD highlighted_index 0 + LABEL_PADDING_RIGHT
  { wnd_width := wnd_width
    wnd_height := wnd_height
    highlight_width := highlight_width
    label_height := label_height
    row_height := row_height
    index_width := index_width
    candi_widths := candi_widths }

/-- The horizontal window width exactly as the claim words it: summed over
all displayed items, left padding + THAT ITEM'S index-label width + gap +
that item's candidate width + right padding, plus the clip-strip width.
This follows the spec's words, for comparison with `computeLayout`. -/
def claimedHorizontalWidth (measureIdx measureCandi : String → ℚ × ℚ)
    (suggs : List String) : ℚ :=
  let items := suggs.take CANDI_NUM
  let labels := indiceStr suggs
  CLIP_WIDTH +
    (((labels.zip items).map
      (fun p => LABEL_PADDING_LEFT + (measureIdx p.1).1 + INDEX_CANDI_GAP
        + (measureCandi p.2).1 + LABEL_PADDING_RIGHT)).sum)

/-! ### Suggestion engine results (`riti`, external black box, spec 4.2) -/

/-- A `CandidateSet` as the Suggestion Engine Adapter returns it.  The engine
is out of scope, so its capability surface (`is_lonely()`, `is_empty()`,
`get_suggestions()`, `get_auxiliary_text()`, `get_pre_edit_text(index)`,
`previously_selected_index()`) is a record of abstract values; `len()` is the
number of suggestions. -/
structure CandidateSet where
  is_lonely : Bool
  is_empty : Bool
  suggestions : List String
  auxiliary_text : String
  pre_edit_text : Nat → String
  previously_selected_index : Nat

/-- Capability `len()`: the number of suggestions in the set. -/
def CandidateSet.len (c : CandidateSet) : Nat :=
  c.suggestions.length

/-! ### Composition session (`src/tsf/composition.rs`) -/

/-- Observable calls a session operation makes out of the component. -/
inductive Event where
  /-- An `edit_session::set_text` attempt with the written text and whether
  the host accepted it. -/
  | setText (text : String) (ok : Bool)
  /-- An engine call `get_suggestion_for_key(key, modifier, selected)`. -/
  | suggestionRequested (key : Nat) (modifier : Nat) (selected : Nat)
  /-- An engine call `backspace_event(ctrl)`. -/
  | backspaceRequested (ctrl : Bool)
  /-- An engine call `candidate_committed(index)`. -/
  | candidateCommitted (index : Nat)
  /-- An engine call `finish_input_session()`. -/
  | finishInputSession
  deriving Repr, DecidableEq

/-- Which host edit-session calls succeed during an operation. -/
structure Host where
  /-- Whether `composition.GetRange()` succeeds. -/
  getRangeOk : Bool
  /-- Whether `edit_session::set_text` succeeds. -/
  setTextOk : Bool
  deriving Repr, DecidableEq

/-- The session fields of `TextServiceInner` that the claims concern:
`composition: Option<ITfComposition>` is modelled by `composing`, plus
`preedit`, `suggestions` and the owned candidate window.  `get_pos`/`locate`
only move the window on screen and are not part of the modelled state. -/
structure TextServiceInner where
  composing : Bool
  preedit : String
  suggestions : Option CandidateSet
  window : CandidateList

/-- Result of a fallible session operation: the state as mutated so far, the
events emitted so far, and whether the Rust `Result` was `Ok`. -/
abbrev StepResult := TextServiceInner × List Event × Bool

namespace TextServiceInner

/-- Method `update_preedit`: `composition()?.GetRange()?` then
`edit_session::set_text` of the preedit text. -/
def update_preedit (host : Host) (s : TextServiceInner) : StepResult :=
  if s.composing && host.getRangeOk then
    (s, [Event.setText s.preedit host.setTextOk], host.setTextOk)
  else (s, [], false)

/-- Method `set_text(text)`: `composition()?.GetRange()?` then
`edit_session::set_text` of the given text. -/
def set_text (host : Host) (s : TextServiceInner) (text : String) : StepResult :=
  if s.composing && host.getRangeOk then
    (s, [Event.setText text host.setTextOk], host.setTextOk)
  else (s, [], false)

/-- Method `update_candidate_list`: unwraps `self.suggestions` (`none` models
the panic), hides the window when the set `is_empty`, otherwise shows the
set's suggestions (and repositions, which is not modelled state). -/
def update_candidate_list (s : TextServiceInner) : Option StepResult :=
  match s.suggestions with
  | none => none
  | some sugg =>
    if sugg.is_empty then
      some ({ s with window := s.window.hide }, [], true)
    else
      some ({ s with window := s.window.show sugg.suggestions }, [], true)

/-- Method `end_composition`: best-effort close of the host composition
transaction (result ignored), `riti.finish_input_session()`, then clear
`composition`, `preedit` and `suggestions` and hide the candidate window. -/
def end_composition (s : TextServiceInner) : StepResult :=
  ({ composing := false
     preedit := ""
     suggestions := none
     window := s.window.hide },
   [Event.finishInputSession], true)

/-- Method `abort`: `let _ = self.set_text(&self.preedit)` — the host write is
attempted and its failure discarded — then `end_composition`. -/
def abort (host : Host) (s : TextServiceInner) : StepResult :=
  let r1 := s.set_text host s.preedit
  let r2 := r1.1.end_composition
  (r2.1, r1.2.1 ++ r2.2.1, r2.2.2)

/-- Method `keypress(key)`: read the window's highlighted index (the `as u8`
cast truncates mod 256), ask the engine, then either the lonely branch
(preedit from `get_pre_edit_text(0)`, window untouched) or the
multi-candidate branch (preedit from the auxiliary text, window updated,
nonzero previous-selection hint re-highlighted). -/
def keypress (engine : Nat → Nat → Nat → CandidateSet) (host : Host)
    (key : Nat) (s : TextServiceInner) : Option StepResult :=
  let selected := s.window.get_highlighted_index % 256
  let sugg := engine key 0 selected
  let ev0 := [Event.suggestionRequested key 0 selected]
  if sugg.is_lonely then
    let s1 := { s with preedit := sugg.pre_edit_text 0 }
    let r1 := s1.update_preedit host
    if r1.2.2 then
      some ({ r1.1 with suggestions := some sugg }, ev0 ++ r1.2.1, true)
    else
      some (r1.1, ev0 ++ r1.2.1, false)
  else
    let prev := sugg.previously_selected_index
    let s1 := { s with preedit := sugg.auxiliary_text, suggestions := some sugg }
    let r1 := s1.update_preedit host
    if r1.2.2 then
      match r1.1.update_candidate_list with
      | none => none
      | some r2 =>
        if r2.2.2 then
          let s3 := r2.1
          let s4 :=
            if prev ≠ 0 then { s3 with window := (s3.window.set_highlight prev).1 }
            else s3
          some (s4, ev0 ++ r1.2.1 ++ r2.2.1, true)
        else
          some (r2.1, ev0 ++ r1.2.1 ++ r2.2.1, false)
    else
      some (r1.1, ev0 ++ r1.2.1, false)

/-- Method `pop`: ask the engine to undo one unit (`backspace_event`).  An
empty result clears the preedit and delegates to `abort`; otherwise the
lonely/multi-candidate branches mirror `keypress` but never restore a
previous-selection hint. -/
def pop (backspace : Bool → CandidateSet) (ctrl : Bool) (host : Host)
    (s : TextServiceInner) : Option StepResult :=
  let sugg := backspace ctrl
  let ev0 := [Event.backspaceRequested ctrl]
  if sugg.is_empty then
    let s1 := { s with preedit := "" }
    let r1 := s1.abort host
    some (r1.1, ev0 ++ r1.2.1, r1.2.2)
  else if sugg.is_lonely then
    let s1 := { s with preedit := sugg.pre_edit_text 0, suggestions := some sugg }
    let r1 := s1.update_preedit host
    some (r1.1, ev0 ++ r1.2.1, r1.2.2)
  else
    let s1 := { s with preedit := sugg.auxiliary_text, suggestions := some sugg }
    let r1 := s1.update_preedit host
    if r1.2.2 then
      match r1.1.update_candidate_list with
      | none => none
      | some r2 => some (r2.1, ev0 ++ r1.2.1 ++ r2.2.1, r2.2.2)
    else
      some (r1.1, ev0 ++ r1.2.1, false)

/-- Method `select(index, append)`: unwraps `self.suggestions` (`none` models
the panic).  When the set is not lonely and `index >= len()`, return `Ok`
with nothing changed and nothing called.  Otherwise notify
`candidate_committed(index)`, write the chosen text (plus the optional
appended char) into the host document, and `end_composition`. -/
def «select» (host : Host) (index : Nat) (append : Option Char)
    (s : TextServiceInner) : Option StepResult :=
  match s.suggestions with
  | none => none
  | some sugg =>
    if !sugg.is_lonely && sugg.len ≤ index then
      some (s, [], true)
    else
      let text := sugg.pre_edit_text index
      let text2 :=
        match append with
        | some c => text.push c
        | none => text
      let r1 := s.set_text host text2
      if r1.2.2 then
        let r2 := r1.1.end_composition
        some (r2.1, Event.candidateCommitted index :: (r1.2.1 ++ r2.2.1), r2.2.2)
      else
        some (r1.1, Event.candidateCommitted index :: r1.2.1, false)

end TextServiceInner

/-- Modelled from the spec: `TextService::try_write` is declared outside the
given sources; per the spec it is a non-blocking try-acquisition of the
session's mutation lock that fails (returns `Err`) when the lock is already
held by an in-flight operation, instead of blocking. -/
def try_write (lockHeld : Bool) : Option Unit :=
  if lockHeld then none else some ()

/-- Handler `ITfCompositionSink::OnCompositionTerminated`:
`self.try_write()?.abort()` — when the try-acquisition fails, `?` returns the
error and the cleanup (`abort`) is skipped entirely. -/
def OnCompositionTerminated (lockHeld : Bool) (host : Host)
    (s : TextServiceInner) : StepResult :=
  match try_write lockHeld with
  | none => (s, [], false)
  | some _ => s.abort host

/-! ### Concrete sample values used by witnesses and counterexamples -/

/-- The window-state invariant of the spec: the highlight is in range
whenever candidates are present. -/
abbrev CandidateList.inv (cl : CandidateList) : Prop :=
  cl.state.candidate_count ≠ 0 →
    cl.state.highlighted_index < cl.state.candidate_count

/-- A window showing two candidates with the second one highlighted. -/
def clA : CandidateList :=
  { state :=
      { highlighted_index := 1
        candidate_count := 2
        candidates := ["ami", "aami"] }
    visible := true }

/-- A window with no candidates stored. -/
def clEmpty : CandidateList :=
  { state :=
      { highlighted_index := 0
        candidate_count := 0
        candidates := [] }
    visible := false }

/-- A lonely candidate set. -/
def csLonely : CandidateSet :=
  { is_lonely := true
    is_empty := false
    suggestions := ["ami"]
    auxiliary_text := "ami"
    pre_edit_text := fun _ => "ami"
    previously_selected_index := 0 }

/-- An empty candidate set (nothing recognized). -/
def csEmpty : CandidateSet :=
  { is_lonely := false
    is_empty := true
    suggestions := []
    auxiliary_text := ""
    pre_edit_text := fun _ => ""
    previously_selected_index := 0 }

/-- A multi-candidate (non-lonely) set with three suggestions. -/
def csMulti : CandidateSet :=
  { is_lonely := false
    is_empty := false
    suggestions := ["ami", "aami", "amii"]
    auxiliary_text := "ami"
    pre_edit_text := fun i => ["ami", "aami", "amii"].getD i ""
    previously_selected_index := 0 }

/-- A host on which every edit-session call succeeds. -/
def hostOk : Host :=
  { getRangeOk := true, setTextOk := true }

/-- An engine answering every key with the lonely set. -/
def engineLonely : Nat → Nat → Nat → CandidateSet :=
  fun _ _ _ => csLonely

/-- A backspace handler answering with the empty set. -/
def backspaceEmpty : Bool → CandidateSet :=
  fun _ => csEmpty

/-- A composing session whose candidate window is open (visible). -/
def sessVisible : TextServiceInner :=
  { composing := true
    preedit := "ami"
    suggestions := some csMulti
    window := clA }

/-- A composing session whose candidate window is hidden. -/
def sessHidden : TextServiceInner :=
  { composing := true
    preedit := "ami"
    suggestions := some csMulti
    window := { clA with visible := false } }

/-- A measurement stub for index labels: `"1."` is 10 wide, `"2."` is 12
wide, both 5 tall. -/
def measureIdx0 : String → ℚ × ℚ :=
  fun str =>
    if str = "1." then (10, 5)
    else if str = "2." then (12, 5)
    else (0, 0)

/-- A measurement stub for candidates: `"a"` is 30 wide, `"bb"` is 34 wide,
both 5 tall. -/
def measureCandi0 : String → ℚ × ℚ :=
  fun str =>
    if str = "a" then (30, 5)
    else if str = "bb" then (34, 5)
    else (0, 0)

/-! ### Helper lemmas -/

theorem CandidateList.repaint_state (cl : CandidateList) (r : Bool) :
    (cl.repaint r).state = cl.state := by
  unfold repaint
  split
  · rfl
  · split <;> rfl

theorem CandidateList.invalidate_eq (cl : CandidateList) :
    cl.invalidate = cl := by
  unfold invalidate repaint
  split <;> simp

theorem list_foldl_add_map_sum (g : ℚ → ℚ) :
    ∀ (l : List ℚ) (init : ℚ),
      l.foldl (fun acc w => acc + g w) init = init + (l.map g).sum := by
  intro l
  induction l with
  | nil => intro init; simp
  | cons a t ih =>
    intro init
    simp only [List.foldl_cons, List.map_cons, List.sum_cons, ih]
    ring

/-! ### Claim theorems -/

/-- C4: the six candidate-window operations `show`, `move_highlight_next`,
`move_highlight_prev`, `set_highlight`, `reset_highlight` and `hide` all
preserve the invariant `highlighted_index < candidate_count` whenever
`candidate_count` is non-zero; `show` establishes it unconditionally by
truncating the stored list to the first 9 entries and resetting the
highlighted index to 0. -/
theorem window_ops_preserve_highlight_invariant
    (cl : CandidateList) (suggs : List String) (index : Nat)
    (h : cl.inv) :
    cl.move_highlight_next.inv
    ∧ cl.move_highlight_prev.inv
    ∧ (cl.set_highlight index).1.inv
    ∧ cl.reset_highlight.inv
    ∧ cl.hide.inv
    ∧ (cl.«show» suggs).inv
    ∧ (cl.«show» suggs).state.candidates = suggs.take 9
    ∧ (cl.«show» suggs).state.highlighted_index = 0 := by
  refine ⟨?_, ?_, ?_, ?_, ?_, ?_, ?_, ?_⟩
  · unfold CandidateList.move_highlight_next
    split
    · exact h
    · rw [CandidateList.invalidate_eq]
      intro _
      exact Nat.mod_lt _ (Nat.pos_of_ne_zero (by assumption))
  · unfold CandidateList.move_highlight_prev
    split
    · exact h
    · split <;> rw [CandidateList.invalidate_eq] <;> dsimp only <;> intro _
      · exact Nat.sub_lt (Nat.pos_of_ne_zero (by assumption)) Nat.one_pos
      · have := h (by assumption)
        show cl.state.highlighted_index - 1 < cl.state.candidate_count
        omega
  · unfold CandidateList.set_highlight
    split
    · exact h
    · rw [CandidateList.invalidate_eq]
      dsimp only
      intro _
      show index < cl.state.candidate_count
      omega
  · intro hcc
    exact Nat.pos_of_ne_zero hcc
  · exact h
  · unfold CandidateList.«show»
    rw [CandidateList.inv, CandidateList.repaint_state]
    dsimp only
    intro hne
    exact Nat.pos_of_ne_zero hne
  · unfold CandidateList.«show»
    rw [CandidateList.repaint_state]
    rfl
  · unfold CandidateList.«show»
    rw [CandidateList.repaint_state]

/-- C4 witness: the preservation theorem applied to a concrete window. -/
theorem window_ops_preserve_highlight_invariant_witness :
    clA.move_highlight_next.inv
    ∧ clA.move_highlight_prev.inv
    ∧ (clA.set_highlight 0).1.inv
    ∧ clA.reset_highlight.inv
    ∧ clA.hide.inv
    ∧ (clA.«show» ["x"]).inv
    ∧ (clA.«show» ["x"]).state.candidates = ["x"].take 9
    ∧ (clA.«show» ["x"]).state.highlighted_index = 0 :=
  window_ops_preserve_highlight_invariant clA ["x"] 0 (by decide)

theorem CandidateList.next_hi (cl : CandidateList)
    (h : cl.state.candidate_count ≠ 0) :
    cl.move_highlight_next.state.highlighted_index
      = (cl.state.highlighted_index + 1) % cl.state.candidate_count := by
  unfold move_highlight_next
  rw [if_neg h, CandidateList.invalidate_eq]

theorem CandidateList.next_unchanged (cl : CandidateList) :
    cl.move_highlight_next.state.candidate_count = cl.state.candidate_count
    ∧ cl.move_highlight_next.state.candidates = cl.state.candidates := by
  unfold move_highlight_next
  split
  · exact ⟨rfl, rfl⟩
  · rw [CandidateList.invalidate_eq]
    exact ⟨rfl, rfl⟩

theorem CandidateList.prev_hi (cl : CandidateList)
    (h : cl.state.candidate_count ≠ 0) :
    cl.move_highlight_prev.state.highlighted_index
      = if cl.state.highlighted_index = 0 then cl.state.candidate_count - 1
        else cl.state.highlighted_index - 1 := by
  unfold move_highlight_prev
  rw [if_neg h]
  split
  · rw [CandidateList.invalidate_eq]
  · rw [CandidateList.invalidate_eq]

theorem CandidateList.prev_unchanged (cl : CandidateList) :
    cl.move_highlight_prev.state.candidate_count = cl.state.candidate_count
    ∧ cl.move_highlight_prev.state.candidates = cl.state.candidates := by
  unfold move_highlight_prev
  split
  · exact ⟨rfl, rfl⟩
  · split <;> (rw [CandidateList.invalidate_eq]; exact ⟨rfl, rfl⟩)

theorem wrap_next_prev (hi cc : Nat) (h : hi < cc) :
    (if (hi + 1) % cc = 0 then cc - 1 else (hi + 1) % cc - 1) = hi := by
  by_cases htop : hi + 1 = cc
  · rw [htop, Nat.mod_self, if_pos rfl]
    omega
  · have hlt2 : hi + 1 < cc := by omega
    rw [Nat.mod_eq_of_lt hlt2, if_neg (by omega)]
    omega

theorem wrap_prev_next (hi cc : Nat) (hpos : 0 < cc) (h : hi < cc) :
    ((if hi = 0 then cc - 1 else hi - 1) + 1) % cc = hi := by
  by_cases h0 : hi = 0
  · rw [if_pos h0, Nat.sub_add_cancel hpos, Nat.mod_self, h0]
  · rw [if_neg h0]
    have h1 : hi - 1 + 1 = hi := by omega
    rw [h1, Nat.mod_eq_of_lt h]

/-- C5: with candidates present and the highlight in range,
`move_highlight_next` then `move_highlight_prev` returns the highlight to the
original index and vice versa; each step wraps around at the ends; and both
operations are no-ops when the candidate list is empty. -/
theorem move_highlight_roundtrip :
    (∀ cl : CandidateList,
      0 < cl.state.candidate_count →
      cl.state.highlighted_index < cl.state.candidate_count →
      cl.move_highlight_next.move_highlight_prev.state.highlighted_index
          = cl.state.highlighted_index
      ∧ cl.move_highlight_prev.move_highlight_next.state.highlighted_index
          = cl.state.highlighted_index
      ∧ (cl.state.highlighted_index = cl.state.candidate_count - 1 →
          cl.move_highlight_next.state.highlighted_index = 0)
      ∧ (cl.state.highlighted_index = 0 →
          cl.move_highlight_prev.state.highlighted_index
            = cl.state.candidate_count - 1))
    ∧ (∀ cl : CandidateList,
        cl.state.candidates = [] →
        cl.state.candidate_count = cl.state.candidates.length →
        cl.move_highlight_next = cl ∧ cl.move_highlight_prev = cl) := by
  constructor
  · intro cl hpos hlt
    have hcc : cl.state.candidate_count ≠ 0 := by omega
    refine ⟨?_, ?_, ?_, ?_⟩
    · rw [CandidateList.prev_hi _
        (by rw [(CandidateList.next_unchanged cl).1]; exact hcc)]
      rw [CandidateList.next_hi cl hcc, (CandidateList.next_unchanged cl).1]
      exact wrap_next_prev _ _ hlt
    · rw [CandidateList.next_hi _
        (by rw [(CandidateList.prev_unchanged cl).1]; exact hcc)]
      rw [CandidateList.prev_hi cl hcc, (CandidateList.prev_unchanged cl).1]
      exact wrap_prev_next _ _ hpos hlt
    · intro htop
      rw [CandidateList.next_hi cl hcc, htop,
        Nat.sub_add_cancel hpos, Nat.mod_self]
    · intro h0
      rw [CandidateList.prev_hi cl hcc, if_pos h0]
  · intro cl hnil hlen
    have hcc : cl.state.candidate_count = 0 := by rw [hlen, hnil]; rfl
    constructor
    · unfold CandidateList.move_highlight_next
      rw [if_pos hcc]
    · unfold CandidateList.move_highlight_prev
      rw [if_pos hcc]

/-- C5 witness: the roundtrip theorem applied to a concrete window with two
candidates and the empty window. -/
theorem move_highlight_roundtrip_witness :
    (clA.move_highlight_next.move_highlight_prev.state.highlighted_index
        = clA.state.highlighted_index)
    ∧ clEmpty.move_highlight_next = clEmpty :=
  ⟨(move_highlight_roundtrip.1 clA (by decide) (by decide)).1,
   (move_highlight_roundtrip.2 clEmpty (by decide) (by decide)).1⟩

/-- C6: `set_highlight(index)` returns false and leaves the window unchanged
exactly when `index >= candidate_count`; otherwise it sets the highlighted
index to `index`, keeps the count and the stored candidates, and returns
true. -/
theorem set_highlight_false_iff_out_of_range (cl : CandidateList) (index : Nat) :
    (((cl.set_highlight index).2 = false ∧ (cl.set_highlight index).1 = cl)
      ↔ cl.state.candidate_count ≤ index)
    ∧ (index < cl.state.candidate_count →
        (cl.set_highlight index).2 = true
        ∧ (cl.set_highlight index).1.state.highlighted_index = index
        ∧ (cl.set_highlight index).1.state.candidate_count
            = cl.state.candidate_count
        ∧ (cl.set_highlight index).1.state.candidates = cl.state.candidates) := by
  unfold CandidateList.set_highlight
  by_cases hc : cl.state.candidate_count ≤ index
  · rw [if_pos hc]
    exact ⟨⟨fun _ => hc, fun _ => ⟨rfl, rfl⟩⟩, fun hlt => absurd hc (by omega)⟩
  · rw [if_neg hc, CandidateList.invalidate_eq]
    constructor
    · constructor
      · rintro ⟨hfalse, _⟩
        simp at hfalse
      · intro hge
        exact absurd hge hc
    · intro _
      exact ⟨rfl, rfl, rfl, rfl⟩

/-- C6 witness: out of range returns false leaving the window as it was; in
range returns true. -/
theorem set_highlight_false_iff_out_of_range_witness :
    ((clA.set_highlight 5).2 = false ∧ (clA.set_highlight 5).1 = clA)
    ∧ (clA.set_highlight 0).2 = true :=
  ⟨(set_highlight_false_iff_out_of_range clA 5).1.mpr (by decide),
   ((set_highlight_false_iff_out_of_range clA 0).2 (by decide)).1⟩

/-- C1 (amended): whenever the engine answers the keypress with a lonely set,
`keypress` sets the preedit to that set's `get_pre_edit_text(0)` and leaves
the candidate window entirely unchanged — in particular it remains hidden
whenever it was hidden before the keypress.  (The code does not hide a window
that was already visible; see the counterexample.) -/
theorem keypress_lonely_preedit_window_unchanged
    (engine : Nat → Nat → Nat → CandidateSet) (host : Host) (key : Nat)
    (s : TextServiceInner)
    (h : (engine key 0 (s.window.get_highlighted_index % 256)).is_lonely = true) :
    (s.keypress engine host key).map (fun r => (r.1.preedit, r.1.window))
      = some ((engine key 0 (s.window.get_highlighted_index % 256)).pre_edit_text 0,
          s.window) := by
  simp only [TextServiceInner.keypress, TextServiceInner.update_preedit, h,
    if_true]
  split
  · split <;> rfl
  · rfl

/-- C1 counterexample: a composing session with the candidate window visible
receives a lonely set; after `keypress` the window is still visible — it is
not hidden as the claim states. -/
theorem keypress_lonely_window_stays_visible_cex :
    csLonely.is_lonely = true
    ∧ sessVisible.window.visible = true
    ∧ (sessVisible.keypress engineLonely hostOk 5).map
        (fun r => r.1.window.visible) = some true :=
  ⟨rfl, rfl, rfl⟩

/-- C1 witness: the amended theorem applied to a concrete session whose
window is hidden. -/
theorem keypress_lonely_preedit_window_unchanged_witness :
    (sessHidden.keypress engineLonely hostOk 5).map
        (fun r => (r.1.preedit, r.1.window))
      = some ((engineLonely 5 0
            (sessHidden.window.get_highlighted_index % 256)).pre_edit_text 0,
          sessHidden.window) :=
  keypress_lonely_preedit_window_unchanged engineLonely hostOk 5 sessHidden rfl

/-- C2: `select(index, append)` on a Composing state whose current set is not
lonely and has `index >= len()` returns `Ok` and changes nothing: same state
(preedit, window visibility and highlight included) and no event, so no
`candidate_committed` call and no `set_text` write. -/
theorem select_out_of_range_noop (host : Host) (index : Nat)
    (append : Option Char) (s : TextServiceInner) (cs : CandidateSet)
    (hsug : s.suggestions = some cs)
    (_hcomp : s.composing = true)
    (hlone : cs.is_lonely = false)
    (hlen : cs.len ≤ index) :
    s.select host index append = some (s, [], true) := by
  unfold TextServiceInner.select
  rw [hsug]
  have hcond : (!cs.is_lonely && decide (cs.len ≤ index)) = true := by
    rw [hlone]
    simp [hlen]
  simp only [hcond, if_true]

/-- C2 witness: the no-op theorem applied to a concrete composing session
with the non-lonely three-candidate set and the out-of-range index 7. -/
theorem select_out_of_range_noop_witness :
    sessHidden.select hostOk 7 none = some (sessHidden, [], true) :=
  select_out_of_range_noop hostOk 7 none sessHidden csMulti rfl rfl rfl
    (by decide)

/-- C3: `abort()` always ends in the Idle shape — composition handle
discarded, preedit cleared, suggestions discarded, candidate window hidden —
for every session state (preedit empty included) and every host, and it
returns `Ok` even when the host `set_text` write fails (the write's failure
is swallowed). -/
theorem abort_always_idle (host : Host) (s : TextServiceInner) :
    (s.abort host).1.composing = false
    ∧ (s.abort host).1.preedit = ""
    ∧ (s.abort host).1.suggestions = none
    ∧ (s.abort host).1.window.visible = false
    ∧ (s.abort host).2.2 = true := by
  unfold TextServiceInner.abort TextServiceInner.set_text
    TextServiceInner.end_composition
  split <;> exact ⟨rfl, rfl, rfl, rfl, rfl⟩

/-- C8: when `backspace_event` answers with an empty set, `pop` clears the
preedit and delegates to `abort`, so the session ends Idle (no composition,
empty preedit, no suggestions) with the candidate window hidden, and `pop`
returns `Ok`. -/
theorem pop_empty_clears_and_aborts
    (backspace : Bool → CandidateSet) (ctrl : Bool) (host : Host)
    (s : TextServiceInner)
    (h : (backspace ctrl).is_empty = true) :
    (s.pop backspace ctrl host).map
        (fun r => (r.1.composing, r.1.preedit, r.1.suggestions.isNone,
          r.1.window.visible, r.2.2))
      = some (false, "", true, false, true) := by
  simp only [TextServiceInner.pop, TextServiceInner.abort,
    TextServiceInner.set_text, TextServiceInner.end_composition, h, if_true]
  split <;> rfl

/-- C8 witness: the theorem applied to a concrete composing session with the
empty backspace answer. -/
theorem pop_empty_clears_and_aborts_witness :
    (sessVisible.pop backspaceEmpty false hostOk).map
        (fun r => (r.1.composing, r.1.preedit, r.1.suggestions.isNone,
          r.1.window.visible, r.2.2))
      = some (false, "", true, false, true) :=
  pop_empty_clears_and_aborts backspaceEmpty false hostOk sessVisible rfl

/-- C9: `OnCompositionTerminated` acquires the session lock with the
non-blocking `try_write`; when the lock is already held by an in-flight
operation it skips its cleanup completely (state untouched, no calls made,
error returned) instead of blocking, and only with the lock free does it run
`abort`. -/
theorem on_composition_terminated_nonblocking :
    (∀ (host : Host) (s : TextServiceInner),
      OnCompositionTerminated true host s = (s, [], false))
    ∧ (∀ (host : Host) (s : TextServiceInner),
      OnCompositionTerminated false host s = s.abort host) :=
  ⟨fun _ _ => rfl, fun _ _ => rfl⟩

theorem TextServiceInner.keypress_events_head
    (engine : Nat → Nat → Nat → CandidateSet) (host : Host) (key : Nat)
    (s : TextServiceInner) :
    (s.keypress engine host key).map (fun r => r.2.1.head?)
      = some (some (Event.suggestionRequested key 0
          (s.window.get_highlighted_index % 256))) := by
  simp only [TextServiceInner.keypress, TextServiceInner.update_preedit,
    TextServiceInner.update_candidate_list]
  repeat' (first | rfl | dsimp only | split)
  rename_i x heq
  split at heq <;> exact Option.noConfusion heq

/-- C10: `hide()` conceals the overlay without touching the stored
candidates, count or highlighted index; `end_composition` keeps the window's
interior state too; hence the first `keypress` of the next composition
episode asks `get_suggestion_for_key` with the previous episode's highlighted
index as the selected index. -/
theorem stale_highlight_carries_into_next_episode
    (cl : CandidateList) (engine : Nat → Nat → Nat → CandidateSet)
    (host : Host) (key : Nat) (s : TextServiceInner)
    (h : s.window.get_highlighted_index < 256) :
    cl.hide.state = cl.state
    ∧ cl.hide.visible = false
    ∧ s.end_composition.1.window.state = s.window.state
    ∧ (s.end_composition.1.keypress engine host key).map
        (fun r => r.2.1.head?)
      = some (some (Event.suggestionRequested key 0
          s.window.get_highlighted_index)) := by
  refine ⟨rfl, rfl, rfl, ?_⟩
  have base := TextServiceInner.keypress_events_head engine host key
    s.end_composition.1
  have hhi : s.end_composition.1.window.get_highlighted_index
      = s.window.get_highlighted_index := rfl
  rw [hhi, Nat.mod_eq_of_lt h] at base
  exact base

/-- C10 witness: the theorem applied to a concrete window and session. -/
theorem stale_highlight_carries_into_next_episode_witness :
    clA.hide.state = clA.state
    ∧ clA.hide.visible = false
    ∧ sessVisible.end_composition.1.window.state = sessVisible.window.state
    ∧ (sessVisible.end_composition.1.keypress engineLonely hostOk 5).map
        (fun r => r.2.1.head?)
      = some (some (Event.suggestionRequested 5 0
          sessVisible.window.get_highlighted_index)) :=
  stale_highlight_carries_into_next_episode clA engineLonely hostOk 5
    sessVisible (by decide)

/-- C7 (amended): in horizontal layout the computed window width equals the
clip-strip width plus, summed over all displayed items, (left padding + the
MAXIMUM index-label width across the displayed items + gap + that item's
candidate width + right padding) — the code reuses the maximum index-label
width for every item, not each item's own label width — and the window height
equals one label height (row height plus top and bottom padding). -/
theorem horizontal_layout_extents
    (measureIdx measureCandi : String → ℚ × ℚ) (suggs : List String)
    (hi : Nat) :
    (computeLayout false measureIdx measureCandi suggs hi).wnd_width
      = CLIP_WIDTH
        + (((suggs.take CANDI_NUM).map
            (fun su => LABEL_PADDING_LEFT
              + (indiceStr suggs).foldl (fun acc l => max acc (measureIdx l).1) 0
              + INDEX_CANDI_GAP + (measureCandi su).1
              + LABEL_PADDING_RIGHT)).sum)
    ∧ (computeLayout false measureIdx measureCandi suggs hi).wnd_height
      = LABEL_PADDING_TOP
        + (computeLayout false measureIdx measureCandi suggs hi).row_height
        + LABEL_PADDING_BOTTOM := by
  constructor
  · simp only [computeLayout, Bool.false_eq_true, if_false]
    rw [list_foldl_add_map_sum, List.map_map]
    have hfun : ((fun w => LABEL_PADDING_LEFT + LABEL_PADDING_RIGHT
          + (indiceStr suggs).foldl (fun acc l => max acc (measureIdx l).1) 0
          + INDEX_CANDI_GAP + w)
        ∘ (fun su => (measureCandi su).1))
        = (fun su => LABEL_PADDING_LEFT
          + (indiceStr suggs).foldl (fun acc l => max acc (measureIdx l).1) 0
          + INDEX_CANDI_GAP + (measureCandi su).1 + LABEL_PADDING_RIGHT) := by
      funext su
      simp only [Function.comp_apply]
      ring
    rw [hfun]
    simp [BORDER_WIDTH]
  · simp only [computeLayout, Bool.false_eq_true, if_false]
    simp [BORDER_WIDTH]

/-- C7 counterexample: measuring `"1."` 10 wide and `"2."` 12 wide with
candidates `"a"` (30) and `"bb"` (34), the code computes width
3 + (5+12+6+30+6) + (5+12+6+34+6) = 125 — the maximum index-label width 12 is
used in both addends — while the claim's per-item formula gives
3 + (5+10+6+30+6) + (5+12+6+34+6) = 123. -/
theorem horizontal_layout_claimed_width_cex :
    (computeLayout false measureIdx0 measureCandi0 ["a", "bb"] 0).wnd_width = 125
    ∧ claimedHorizontalWidth measureIdx0 measureCandi0 ["a", "bb"] = 123
    ∧ (computeLayout false measureIdx0 measureCandi0 ["a", "bb"] 0).wnd_width
        ≠ claimedHorizontalWidth measureIdx0 measureCandi0 ["a", "bb"] := by
  have h1 : (computeLayout false measureIdx0 measureCandi0 ["a", "bb"] 0).wnd_width
      = 125 := by
    simp [computeLayout, indiceStr, CANDI_NUM, CANDI_INDEXES, CANDI_INDEX_SUFFIX,
      measureIdx0, measureCandi0, max_def, CLIP_WIDTH, LABEL_PADDING_TOP,
      LABEL_PADDING_BOTTOM, LABEL_PADDING_LEFT, LABEL_PADDING_RIGHT,
      INDEX_CANDI_GAP, BORDER_WIDTH, List.range_succ]
    norm_num
  have h2 : claimedHorizontalWidth measureIdx0 measureCandi0 ["a", "bb"] = 123 := by
    simp [claimedHorizontalWidth, indiceStr, CANDI_NUM, CANDI_INDEXES,
      CANDI_INDEX_SUFFIX, measureIdx0, measureCandi0, CLIP_WIDTH,
      LABEL_PADDING_LEFT, LABEL_PADDING_RIGHT, INDEX_CANDI_GAP, List.range_succ]
    norm_num
  refine ⟨h1, h2, ?_⟩
  rw [h1, h2]
  norm_num
